import Mathlib

/-!
Verification development for the discovery-service backend.

The orchestration layer lives in `backend/app.py` (Flask resources calling
celery and two store modules).  Pure fragments of the Python source are
embedded as Lean functions; request handlers become functions from an
environment (external collaborators: object store, execution backend),
a store interface, and a state to `Except PyExn (HttpResp × St)` — a raised
Python exception or an HTTP response together with the successor state.

The unit-metadata / topology store functions of
`backend/search/redis_tools.py` are commented out in the source (only
`add_table` is defined, and line 6 holds an incomplete `from redis import`
statement), and the celery primitives (`group`, `chord`, signature chaining,
`result_from_tuple`) together with `generate_status_tree` from
`backend.utility.celery_utils` are not part of the repository sources.
Those parts are modelled from the spec (sections 3, 4.3, 4.4 and 6) and are
marked `Modelled from the spec:` in their doc comments.
-/

set_option autoImplicit false

namespace Discovery

/-- Python exceptions that the embedded fragments can raise. -/
inductive PyExn where
  | nameError (n : String)
  | attributeError (n : String)
  | syntaxError (msg : String)
  | noSuchKey
  | backendError (msg : String)
deriving DecidableEq, Repr

/-- Live execution state of a job node, per spec section 2:
pending, running, succeeded or failed. -/
inductive TaskState where
  | pending
  | running
  | succeeded
  | failed
deriving DecidableEq, Repr

/-- Modelled from the spec: one node of a persisted topology, shape
`\x7bid, name, args, children\x7d` (spec sections 3 and 6).  Identifiers are
modelled as naturals assigned by the execution backend. -/
structure TaskNode where
  id : Nat
  name : String
  args : List String
  children : List TaskNode
deriving Repr

/-- Modelled from the spec: one node of a reconstructed status tree — name,
argument snapshot, resolved live state, own identifier and reconstructed
children in persisted order (spec section 4.4). -/
structure StatusNode where
  name : String
  args : List String
  status : TaskState
  id : Nat
  children : List StatusNode
deriving Repr

/-- Body of an HTTP response produced by a handler. -/
inductive RespBody where
  | text (s : String)
  | taskId (id : Nat) (ty : String)
  | statusTree (t : StatusNode)
  | csv (s : String)
deriving Repr

/-- An HTTP response: status code and body. -/
structure HttpResp where
  status : Nat
  body : RespBody
deriving Repr

/-- Abbreviation for a plain-text response. -/
def resp (status : Nat) (s : String) : HttpResp := ⟨status, .text s⟩

/-- Python truthiness of an optional string query parameter:
absent or empty is falsy (`if not bucket:` in the source). -/
def pyFalsy : Option String → Bool
  | none => true
  | some s => s.isEmpty

/-- The string carried by a present query parameter. -/
def strOf : Option String → String
  | none => ""
  | some s => s

/-! ## The store module, `backend/search/redis_tools.py` -/

/-- The names imported by the `from redis import` statement on line 6 of
`backend/search/redis_tools.py`: the clause is empty. -/
def redisImportNames : List String := []

/-- A Python from-import clause is syntactically complete only when it names
at least one imported binding. -/
def fromImportComplete (names : List String) : Bool := !names.isEmpty

/-- The function names bound by def statements in
`backend/search/redis_tools.py`: only `add_table`.  The definitions of
`save_celery_task`, `get_celery_task`, `list_tables`, `get_table`,
`table_exists`, `get_node_ids` and `purge` appear only inside comments. -/
def redisToolsDefs : List String := ["add_table"]

/-- Loading the store module: fails with a syntax error when the import
clause is incomplete, otherwise yields the set of defined names. -/
def loadRedisTools : Except PyExn (List String) :=
  if fromImportComplete redisImportNames then .ok redisToolsDefs
  else .error (.syntaxError "from redis import")

/-- Resolving `db.<fname>` against the store module: the module must load
and must bind the name. -/
def resolveDbAttr (fname : String) : Except PyExn Unit :=
  match loadRedisTools with
  | .error e => .error e
  | .ok defs => if defs.contains fname then .ok () else .error (.attributeError fname)

/-- Unit-metadata store state: paths marked processed, and the topology
store keyed by root identifier.  Modelled from the spec (sections 4.3 and 6);
the corresponding `redis_tools` functions are commented out in the source. -/
structure Store where
  processed : List String
  topologies : List (Nat × TaskNode)
deriving Repr

/-- Lookup of a persisted topology by root identifier
(spec: `load(rootId) → topologyTree | NotFound`). -/
def storeLookupTask (st : Store) (tid : Nat) : Option TaskNode :=
  (st.topologies.find? (fun e => e.1 == tid)).map (fun e => e.2)

/-- The store interface consumed by the handlers, mirroring the calls
`db.table_exists`, `db.get_table`, `db.save_celery_task`,
`db.get_celery_task` and `db.purge` in `app.py`.  Each operation may raise. -/
structure Db where
  table_exists : Store → String → Except PyExn Bool
  get_table : Store → String → Except PyExn (Option String)
  save_celery_task : Store → Nat → TaskNode → Except PyExn Store
  get_celery_task : Store → Nat → Except PyExn (Option TaskNode)
  purge : Store → Except PyExn Store

/-- Modelled from the spec: the intended behaviour of the commented-out
store functions — point reads of unit metadata keyed by path, whole-tree
writes of topologies keyed by root identifier, unconditional purge
(spec sections 4.2, 4.3 and 6). -/
def specDb : Db where
  table_exists := fun st p => .ok (st.processed.contains p)
  get_table := fun st p => .ok (if st.processed.contains p then some p else none)
  save_celery_task := fun st tid t => .ok { st with topologies := (tid, t) :: st.topologies }
  get_celery_task := fun st tid => .ok (storeLookupTask st tid)
  purge := fun _ => .ok ⟨[], []⟩

/-- A db call through the broken store module: attribute resolution runs
first; the continuation that would execute the function body is never
reached because loading the module fails. -/
def brokenCall {α : Type} (fname : String) : Except PyExn α :=
  (resolveDbAttr fname).bind (fun _ => .error (.backendError fname))

/-- The store interface as actually provided by
`backend/search/redis_tools.py`: every operation raises, because the module
does not load (incomplete import) and does not define these functions. -/
def brokenDb : Db where
  table_exists := fun _ _ => brokenCall "table_exists"
  get_table := fun _ _ => brokenCall "get_table"
  save_celery_task := fun _ _ _ => brokenCall "save_celery_task"
  get_celery_task := fun _ _ => brokenCall "get_celery_task"
  purge := fun _ => brokenCall "purge"

/-! ## The execution backend (celery), modelled from the spec -/

/-- Modelled from the spec: the execution backend assigns a fresh opaque
identifier to every submitted job node (spec section 6,
`submit(stageRef, args) → jobId`). -/
structure Backend where
  nextId : Nat
deriving Repr

/-- Draw a fresh job identifier from the backend. -/
def freshId (b : Backend) : Nat × Backend := (b.nextId, ⟨b.nextId + 1⟩)

/-- Modelled from the spec: submitting the independent leaves of a group,
one node per unit, in submission order (spec section 4.1). -/
def submitLeaves (b : Backend) : List (String × List String) → List TaskNode × Backend
  | [] => ([], b)
  | (nm, ar) :: rest =>
      let (i, b1) := freshId b
      let (ns, b2) := submitLeaves b1 rest
      (⟨i, nm, ar, []⟩ :: ns, b2)

/-- Modelled from the spec: fan-out/fan-in submission (celery
`chord(group(header))(callback)`): independent leaves joined by a single
finalize node; the persisted root is the finalize node, its children are the
leaves in submission order, and the finalize node carries its own fixed
arguments (spec sections 4.1 and 8). -/
def submitChord (b : Backend) (leaves : List (String × List String))
    (finName : String) (finArgs : List String) : TaskNode × Backend :=
  (⟨(submitLeaves b leaves).2.nextId, finName, finArgs, (submitLeaves b leaves).1⟩,
   ⟨(submitLeaves b leaves).2.nextId + 1⟩)

/-- Modelled from the spec: two-stage chain submission (celery
`(s1 | s2).apply_async()`): a linear parent→child path whose topmost node is
the first stage; each stage carries its own arguments (spec section 4.1). -/
def submitChain2 (b : Backend) (s1 s2 : String × List String) : TaskNode × Backend :=
  (⟨b.nextId, s1.1, s1.2, [⟨b.nextId + 1, s2.1, s2.2, []⟩]⟩, ⟨b.nextId + 2⟩)

/-- Modelled from the spec: single-leaf submission (celery `.delay(...)`). -/
def submitSingle (b : Backend) (nm : String) (ar : List String) : TaskNode × Backend :=
  (⟨b.nextId, nm, ar, []⟩, ⟨b.nextId + 1⟩)

/-- Combined mutable state of a handler call: the stores and the backend
identifier supply. -/
structure St where
  store : Store
  backend : Backend
deriving Repr

/-! ## The object-store adapter, `backend/search/io_tools.py` -/

/-- External collaborators of the handlers: the minio client primitives used
by `io_tools`, the object-store table-existence check as called by the
handlers (`search.io_tools.table_exists` — the spec treats the object-store
adapter as an external collaborator), the live-state query of the execution
backend (`queryState(jobId)`, spec section 6), and the CSV extraction of
`get_ddf(...).head(rows).to_csv()`. -/
structure Env where
  minio_bucket_exists : String → Bool
  minio_list_objects : String → List String
  minio_stat_object : String → String → Except PyExn Unit
  table_exists : String → String → Except PyExn Bool
  queryState : Nat → Except PyExn TaskState
  ddf_head_csv : String → String → Int → String

/-- From `io_tools.get_tables`: the object names listed under the bucket. -/
def get_tables (env : Env) (bucket : String) : List String :=
  env.minio_list_objects bucket

/-- From `io_tools.bucket_exists`. -/
def bucket_exists (env : Env) (bucket : String) : Bool :=
  env.minio_bucket_exists bucket

/-- The local scope of `io_tools.table_exists`: its two parameters,
`bucket` and `table_path`. -/
def tableExistsLocals (bucket table_path : String) : List (String × String) :=
  [("bucket", bucket), ("table_path", table_path)]

/-- Python name resolution in a local scope: an unbound name raises
`NameError`. -/
def lookupVar (scope : List (String × String)) (n : String) : Except PyExn String :=
  match scope.find? (fun e => e.1 == n) with
  | some e => .ok e.2
  | none => .error (.nameError n)

/-- From `io_tools.table_exists`: the body evaluates
`minio.minio_client.stat_object(bucket, path)` — it references the names
`bucket` and `path` in a scope that binds only `bucket` and `table_path` —
and maps `NoSuchKey` to `False`, success to `True`. -/
def io_table_exists (env : Env) (bucket table_path : String) : Except PyExn Bool := do
  let b ← lookupVar (tableExistsLocals bucket table_path) "bucket"
  let p ← lookupVar (tableExistsLocals bucket table_path) "path"
  match env.minio_stat_object b p with
  | .ok _ => .ok true
  | .error .noSuchKey => .ok false
  | .error e => .error e

/-! ## The status reconstructor -/

/-- Modelled from the spec: deserializing a stored topology tuple into a
result object (celery `result_from_tuple`); a well-formed stored tree always
deserializes. -/
def result_from_tuple (t : TaskNode) : Option TaskNode := some t

mutual

/-- Modelled from the spec: `generate_status_tree` from
`backend.utility.celery_utils` (module absent from the sources) — a
depth-first traversal of the persisted tree that queries the execution
backend for every node and composes a status node; any failing live-state
query fails the whole reconstruction (spec section 4.4). -/
def generate_status_tree (q : Nat → Except PyExn TaskState) :
    TaskNode → Except PyExn StatusNode
  | .mk i nm ar cs => do
      let s ← q i
      let rcs ← statusForest q cs
      pure ⟨nm, ar, s, i, rcs⟩

/-- Depth-first reconstruction of a list of sibling subtrees, order
preserved. -/
def statusForest (q : Nat → Except PyExn TaskState) :
    List TaskNode → Except PyExn (List StatusNode)
  | [] => pure []
  | c :: cs => do
      let r ← generate_status_tree q c
      let rs ← statusForest q cs
      pure (r :: rs)

end

mutual

/-- The identifiers occurring in a topology tree. -/
def nodeIds : TaskNode → List Nat
  | .mk i _ _ cs => i :: forestIds cs

/-- The identifiers occurring in a list of topology trees. -/
def forestIds : List TaskNode → List Nat
  | [] => []
  | c :: cs => nodeIds c ++ forestIds cs

end

/-! ## The request handlers of `backend/app.py` -/

/-- The loop of app.py lines 50-55: keep, in order, the table paths for
which `db.table_exists` answers false; already-processed tables contribute
no leaf. -/
def filterUnprocessed (db : Db) (st : Store) : List String → Except PyExn (List String)
  | [] => .ok []
  | p :: ps => do
      let e ← db.table_exists st p
      let rest ← filterUnprocessed db st ps
      .ok (if e then rest else p :: rest)

/-- From `IngestData.get` (app.py lines 38-63): validate the bucket
parameter, check bucket existence, list the tables, build one `add_table`
leaf per table not yet recorded as processed, submit the group joined by a
`profile_valentine_all.si(bucket)` finalize node, persist the topology under
the root identifier, and answer 202 with that identifier.  The group save of
`profiling_chord.parent.save()` happens inside the execution backend and has
no counterpart in the modelled state. -/
def IngestData_get (env : Env) (db : Db) (s : St) (bucket? : Option String) :
    Except PyExn (HttpResp × St) :=
  if pyFalsy bucket? then .ok (resp 400 "Missing bucket query parameter", s) else
  let b := strOf bucket?
  if !(bucket_exists env b) then .ok (resp 404 "Bucket does not exist", s) else
  let paths := get_tables env b
  if paths.length = 0 then .ok (resp 204 "Bucket is empty", s) else do
    let unproc ← filterUnprocessed db s.store paths
    let header := unproc.map (fun p => ("add_table", [b, p]))
    let (root, bk) := submitChord s.backend header "profile_valentine_all" [b]
    let store2 ← db.save_celery_task s.store root.id root
    pure (⟨202, .taskId root.id "Ingestion"⟩, ⟨store2, bk⟩)

/-- From `TaskStatus.get` (app.py lines 90-103): validate the identifier,
load the persisted topology (404 when absent), deserialize it (500 when that
yields nothing), and reconstruct the status tree against the live backend. -/
def TaskStatus_get (env : Env) (db : Db) (s : St) (task_id? : Option Nat) :
    Except PyExn (HttpResp × St) :=
  match task_id? with
  | none => .ok (resp 400 "Missing task id query parameter", s)
  | some tid => do
      let rt ← db.get_celery_task s.store tid
      match rt with
      | none => .ok (resp 404 "Task does not exist", s)
      | some tup =>
          match result_from_tuple tup with
          | none => .ok (resp 500 "Task could not be loaded from backend", s)
          | some result => do
              let tree ← generate_status_tree env.queryState result
              pure (⟨200, .statusTree tree⟩, s)

/-- From `Purge.get` (app.py lines 110-113): purge the store and answer 200.
The graph-store call `discovery.crud.delete_all_nodes()` touches an external
collaborator outside the modelled state. -/
def Purge_get (db : Db) (s : St) : Except PyExn (HttpResp × St) := do
  let store2 ← db.purge s.store
  pure (resp 200 "Success", ⟨store2, s.backend⟩)

/-- From `ProfileValentine.get` (app.py lines 174-194): validate parameters,
check bucket and object-store table existence, require the table to be
ingested, submit a single `profile_valentine_star` job, persist its topology
and answer 202 with its identifier. -/
def ProfileValentine_get (env : Env) (db : Db) (s : St)
    (bucket? table_path? : Option String) : Except PyExn (HttpResp × St) :=
  if pyFalsy bucket? || pyFalsy table_path? then
    .ok (resp 400 "Missing table path or bucket query parameters", s) else
  let b := strOf bucket?
  let tp := strOf table_path?
  if !(bucket_exists env b) then .ok (resp 404 "Bucket does not exist", s) else do
    let te ← env.table_exists b tp
    if !te then .ok (resp 404 "Table does not exist", s) else do
      let ing ← db.table_exists s.store tp
      if !ing then .ok (resp 403 "Table has not been ingested yet", s) else
      let (node, bk) := submitSingle s.backend "profile_valentine_star" [b, tp]
      do
        let store2 ← db.save_celery_task s.store node.id node
        pure (⟨202, .taskId node.id "Valentine Profiling"⟩, ⟨store2, bk⟩)

/-- From `AddTable.get` (app.py lines 208-228): validate parameters, check
bucket and object-store table existence, short-circuit with 204 when the
table was already processed, submit the two-stage chain
`add_table.si(bucket, table_path) | profile_valentine_star.si(bucket,
table_path)`, persist its topology and answer 202 with its identifier. -/
def AddTable_get (env : Env) (db : Db) (s : St)
    (bucket? table_path? : Option String) : Except PyExn (HttpResp × St) :=
  if pyFalsy bucket? || pyFalsy table_path? then
    .ok (resp 400 "Missing table path or bucket query parameters", s) else
  let b := strOf bucket?
  let tp := strOf table_path?
  if !(bucket_exists env b) then .ok (resp 404 "Bucket does not exist", s) else do
    let te ← env.table_exists b tp
    if !te then .ok (resp 404 "Table does not exist", s) else do
      let gt ← db.get_table s.store tp
      if gt.isSome then .ok (resp 204 "Table was already processed", s) else
      let (root, bk) := submitChain2 s.backend
        ("add_table", [b, tp]) ("profile_valentine_star", [b, tp])
      do
        let store2 ← db.save_celery_task s.store root.id root
        pure (⟨202, .taskId root.id "Single Ingestion"⟩, ⟨store2, bk⟩)

/-- Value of a decimal digit character. -/
def digitVal (c : Char) : Option Nat :=
  if c.isDigit then some (c.toNat - 48) else none

/-- Accumulating decimal parse of a digit sequence; no digits at all, or a
non-digit character, yields nothing. -/
def digitsToNat : Option Nat → List Char → Option Nat
  | acc, [] => acc
  | acc, c :: cs =>
      match digitVal c with
      | none => none
      | some d => digitsToNat (some ((acc.getD 0) * 10 + d)) cs

/-- Python `int(...)` conversion of a string, modelled for optionally signed
decimal strings: an optional sign followed by at least one digit; anything
else raises `ValueError`, modelled as `none`. -/
def pyToInt (s : String) : Option Int :=
  match s.data with
  | '-' :: rest => (digitsToNat none rest).map (fun n => -(n : Int))
  | '+' :: rest => (digitsToNat none rest).map (fun n => (n : Int))
  | l => (digitsToNat none l).map (fun n => (n : Int))

/-- Flask `request.args.get(name, type=int)`: absent gives `None`, a present
value is converted with `int(...)` and a conversion failure also gives
`None`. -/
def pyIntArg (raw : Option String) : Option Int :=
  raw.bind pyToInt

/-- From `GetTableCSV.get` (app.py lines 242-255): validate the three
parameters — `rows` is read with `type=int`, so an absent, unparsable or
zero value is falsy — check bucket and object-store table existence, and
answer with the CSV head of the table. -/
def GetTableCSV_get (env : Env) (_db : Db) (s : St)
    (bucket? table_path? rows_raw : Option String) : Except PyExn (HttpResp × St) :=
  let rows := pyIntArg rows_raw
  if pyFalsy bucket? || pyFalsy table_path? || rows.getD 0 == 0 then
    .ok (resp 400 "Missing table path, rows or bucket query parameters", s) else
  let b := strOf bucket?
  let tp := strOf table_path?
  if !(bucket_exists env b) then .ok (resp 404 "Bucket does not exist", s) else do
    let te ← env.table_exists b tp
    if !te then .ok (resp 404 "Table does not exist", s) else
    pure (⟨200, .csv (env.ddf_head_csv b tp (rows.getD 0))⟩, s)

/-! ## Reduction lemmas -/

@[simp] theorem ok_bind {α β : Type} (a : α) (f : α → Except PyExn β) :
    (Except.ok a : Except PyExn α) >>= f = f a := rfl

@[simp] theorem error_bind {α β : Type} (e : PyExn) (f : α → Except PyExn β) :
    (Except.error e : Except PyExn α) >>= f = .error e := rfl

@[simp] theorem pure_ok {α : Type} (a : α) :
    (pure a : Except PyExn α) = .ok a := rfl

theorem brokenCall_eq {α : Type} (fname : String) :
    brokenCall (α := α) fname = .error (.syntaxError "from redis import") := rfl

@[simp] theorem specDb_table_exists (st : Store) (p : String) :
    specDb.table_exists st p = .ok (st.processed.contains p) := rfl

@[simp] theorem specDb_get_table (st : Store) (p : String) :
    specDb.get_table st p = .ok (if st.processed.contains p then some p else none) := rfl

@[simp] theorem specDb_save_celery_task (st : Store) (tid : Nat) (t : TaskNode) :
    specDb.save_celery_task st tid t =
      .ok { st with topologies := (tid, t) :: st.topologies } := rfl

@[simp] theorem specDb_get_celery_task (st : Store) (tid : Nat) :
    specDb.get_celery_task st tid = .ok (storeLookupTask st tid) := rfl

/-- The idempotency filter, run against the spec-modelled store, keeps
exactly the paths not recorded as processed, in order. -/
theorem filterUnprocessed_specDb (st : Store) (ps : List String) :
    filterUnprocessed specDb st ps =
      .ok (ps.filter (fun p => !(st.processed.contains p))) := by
  induction ps with
  | nil => rfl
  | cons p ps ih =>
      simp only [filterUnprocessed, specDb_table_exists, ok_bind, ih, List.filter_cons]
      cases h : st.processed.contains p <;> simp [h]

/-- Shape of the leaves submitted for a group: names and arguments follow
the submitted signatures in order, and leaves have no children. -/
theorem submitLeaves_shape (bk : Backend) (ls : List (String × List String)) :
    ((submitLeaves bk ls).1.map TaskNode.name = ls.map Prod.fst) ∧
    ((submitLeaves bk ls).1.map TaskNode.args = ls.map Prod.snd) ∧
    (∀ c ∈ (submitLeaves bk ls).1, c.children = []) := by
  induction ls generalizing bk with
  | nil => simp [submitLeaves]
  | cons l ls ih =>
      obtain ⟨nm, ar⟩ := l
      simp only [submitLeaves, freshId, List.map_cons, List.mem_cons]
      refine ⟨?_, ?_, ?_⟩
      · simp [(ih ⟨bk.nextId + 1⟩).1]
      · simp [(ih ⟨bk.nextId + 1⟩).2.1]
      · rintro c (rfl | hc)
        · rfl
        · exact (ih ⟨bk.nextId + 1⟩).2.2 c hc

/-- Reduction of the bulk-ingestion handler on the main branch: parameter
present, bucket existing, at least one listed table. -/
theorem IngestData_get_run (env : Env) (s : St) (b : String)
    (hb : b.isEmpty = false) (hex : env.minio_bucket_exists b = true)
    (hpaths : env.minio_list_objects b ≠ []) :
    IngestData_get env specDb s (some b) =
      (let unproc := (env.minio_list_objects b).filter
         (fun p => !(s.store.processed.contains p))
       let rb := submitChord s.backend (unproc.map (fun p => ("add_table", [b, p])))
         "profile_valentine_all" [b]
       .ok (⟨202, .taskId rb.1.id "Ingestion"⟩,
            ⟨{ s.store with topologies := (rb.1.id, rb.1) :: s.store.topologies },
             rb.2⟩)) := by
  simp only [IngestData_get, pyFalsy, strOf, bucket_exists, get_tables, hb, hex,
    Bool.not_true, Bool.false_eq_true, if_false, List.length_eq_zero, hpaths,
    filterUnprocessed_specDb, ok_bind]
  rcases hsc : submitChord s.backend
      (((env.minio_list_objects b).filter
        (fun p => !(s.store.processed.contains p))).map
        (fun p => ("add_table", [b, p]))) "profile_valentine_all" [b] with ⟨root, bk⟩
  simp [hsc, specDb]

/-- If reconstruction of a tree succeeds, every node identifier in the tree
had a successful live-state query. -/
theorem generate_status_tree_ok_queries (q : Nat → Except PyExn TaskState)
    (t : TaskNode) : ∀ sn : StatusNode, generate_status_tree q t = .ok sn →
      ∀ i ∈ nodeIds t, ∃ u, q i = .ok u := by
  refine generate_status_tree.induct q
    (fun t => ∀ sn, generate_status_tree q t = .ok sn → ∀ i ∈ nodeIds t, ∃ u, q i = .ok u)
    (fun ts => ∀ sns, statusForest q ts = .ok sns → ∀ i ∈ forestIds ts, ∃ u, q i = .ok u)
    ?_ ?_ ?_ t
  · intro i nm ar cs ih sn h j hj
    simp only [generate_status_tree] at h
    cases hq : q i with
    | error e => rw [hq] at h; simp at h
    | ok u =>
        rw [hq] at h
        simp only [ok_bind] at h
        cases hf : statusForest q cs with
        | error e => rw [hf] at h; simp at h
        | ok sns =>
            rw [hf] at h
            simp only [nodeIds, List.mem_cons] at hj
            rcases hj with rfl | hj
            · exact ⟨u, hq⟩
            · exact ih sns hf j hj
  · intro sns _ i hi
    simp [forestIds] at hi
  · intro c cs ih1 ih2 sns h i hi
    simp only [statusForest] at h
    cases hc : generate_status_tree q c with
    | error e => rw [hc] at h; simp at h
    | ok r =>
        rw [hc] at h
        simp only [ok_bind] at h
        cases hcs : statusForest q cs with
        | error e => rw [hcs] at h; simp at h
        | ok rs =>
            simp only [forestIds, List.mem_append] at hi
            rcases hi with hi | hi
            · exact ih1 r hc i hi
            · exact ih2 rs hcs i hi

/-- If any node of a tree has a failing live-state query, reconstruction of
the whole tree fails. -/
theorem generate_status_tree_fails (q : Nat → Except PyExn TaskState)
    (t : TaskNode) (i : Nat) (e : PyExn)
    (hi : i ∈ nodeIds t) (hq : q i = .error e) :
    ∃ e2, generate_status_tree q t = .error e2 := by
  cases h : generate_status_tree q t with
  | ok sn =>
      obtain ⟨u, hu⟩ := generate_status_tree_ok_queries q t sn h i hi
      rw [hq] at hu
      simp at hu
  | error e2 => exact ⟨e2, rfl⟩

/-- A status query for an identifier whose topology is persisted either
fails (a live-state query raised) or answers 200 with a full status tree;
it never answers 404. -/
theorem TaskStatus_found (env : Env) (s : St) (tid : Nat) (t : TaskNode)
    (h : storeLookupTask s.store tid = some t) :
    (∃ e, TaskStatus_get env specDb s (some tid) = .error e) ∨
    (∃ tree, TaskStatus_get env specDb s (some tid) =
      .ok (⟨200, .statusTree tree⟩, s)) := by
  simp only [TaskStatus_get, specDb_get_celery_task, ok_bind, h, result_from_tuple]
  cases hg : generate_status_tree env.queryState t with
  | error e => exact .inl ⟨e, by simp [hg]⟩
  | ok tree => exact .inr ⟨tree, by simp [hg]⟩

/-- Looking a topology up right after persisting it finds it. -/
theorem storeLookupTask_save (st : Store) (tid : Nat) (t : TaskNode) :
    storeLookupTask { st with topologies := (tid, t) :: st.topologies } tid = some t := by
  simp [storeLookupTask]

/-- A task-identifier response from the bulk-ingestion handler implies the
topology was persisted in the resulting state under that identifier. -/
theorem IngestData_taskId_persisted (env : Env) (s : St) (b? : Option String)
    (c tid : Nat) (ty : String) (s2 : St)
    (h : IngestData_get env specDb s b? = .ok (⟨c, .taskId tid ty⟩, s2)) :
    ∃ t, storeLookupTask s2.store tid = some t := by
  simp only [IngestData_get] at h
  split at h
  · simp [resp] at h
  · split at h
    · simp [resp] at h
    · split at h
      · simp [resp] at h
      · rw [filterUnprocessed_specDb] at h
        simp only [ok_bind, submitChord, specDb_save_celery_task] at h
        simp only [pure_ok, Except.ok.injEq, Prod.mk.injEq, HttpResp.mk.injEq,
          RespBody.taskId.injEq] at h
        obtain ⟨⟨hc, htid, hty⟩, hs2⟩ := h
        subst htid
        subst hs2
        exact ⟨_, storeLookupTask_save _ _ _⟩

/-- A task-identifier response from the single-table handler implies the
topology was persisted in the resulting state under that identifier. -/
theorem AddTable_taskId_persisted (env : Env) (s : St)
    (b? tp? : Option String) (c tid : Nat) (ty : String) (s2 : St)
    (h : AddTable_get env specDb s b? tp? = .ok (⟨c, .taskId tid ty⟩, s2)) :
    ∃ t, storeLookupTask s2.store tid = some t := by
  simp only [AddTable_get] at h
  split at h
  · simp [resp] at h
  · split at h
    · simp [resp] at h
    · cases hte : env.table_exists (strOf b?) (strOf tp?) with
      | error e => rw [hte] at h; simp at h
      | ok te =>
          rw [hte] at h
          simp only [ok_bind, specDb_get_table] at h
          split at h
          · simp [resp] at h
          · split at h
            · simp [resp] at h
            · rw [if_neg (by simp)] at h
              simp only [submitChain2, specDb_save_celery_task, ok_bind] at h
              simp only [pure_ok, Except.ok.injEq, Prod.mk.injEq, HttpResp.mk.injEq,
                RespBody.taskId.injEq] at h
              obtain ⟨⟨hc, htid, hty⟩, hs2⟩ := h
              subst htid
              subst hs2
              exact ⟨_, storeLookupTask_save _ _ _⟩

/-- A task-identifier response from the star-profiling handler implies the
topology was persisted in the resulting state under that identifier. -/
theorem ProfileValentine_taskId_persisted (env : Env) (s : St)
    (b? tp? : Option String) (c tid : Nat) (ty : String) (s2 : St)
    (h : ProfileValentine_get env specDb s b? tp? = .ok (⟨c, .taskId tid ty⟩, s2)) :
    ∃ t, storeLookupTask s2.store tid = some t := by
  simp only [ProfileValentine_get] at h
  split at h
  · simp [resp] at h
  · split at h
    · simp [resp] at h
    · cases hte : env.table_exists (strOf b?) (strOf tp?) with
      | error e => rw [hte] at h; simp at h
      | ok te =>
          rw [hte] at h
          simp only [ok_bind, specDb_table_exists] at h
          split at h
          · simp [resp] at h
          · split at h
            · simp [resp] at h
            · simp only [submitSingle, specDb_save_celery_task, ok_bind] at h
              simp only [pure_ok, Except.ok.injEq, Prod.mk.injEq, HttpResp.mk.injEq,
                RespBody.taskId.injEq] at h
              obtain ⟨⟨hc, htid, hty⟩, hs2⟩ := h
              subst htid
              subst hs2
              exact ⟨_, storeLookupTask_save _ _ _⟩

/-! ## Concrete instances used by the closed witness statements -/

/-- A concrete well-behaved environment: the bucket exists, it lists the
tables A and B, the object-store adapter and the live-state query succeed. -/
def envW : Env where
  minio_bucket_exists := fun _ => true
  minio_list_objects := fun _ => ["A", "B"]
  minio_stat_object := fun _ _ => .ok ()
  table_exists := fun _ _ => .ok true
  queryState := fun _ => .ok .pending
  ddf_head_csv := fun _ _ _ => ""

/-- The empty initial state: nothing processed, nothing persisted. -/
def st0 : St := ⟨⟨[], []⟩, ⟨0⟩⟩

/-- The environment whose object-store table check is the actual
`io_tools.table_exists` of the source. -/
def envIo : Env := { envW with table_exists := io_table_exists envW }

/-- An environment whose live-state queries all fail transiently. -/
def envQfail : Env := { envW with queryState := fun _ => .error (.backendError "backend down") }

/-- A state holding one persisted single-node topology under identifier 5. -/
def stTopo : St := ⟨⟨[], [(5, ⟨5, "add_table", ["data", "A"], []⟩)]⟩, ⟨6⟩⟩

/-- The state after a successful single-table submission for unit C from
the empty state. -/
def stAdd : St :=
  ⟨⟨[], [(0, ⟨0, "add_table", ["data", "C"],
    [⟨1, "profile_valentine_star", ["data", "C"], []⟩]⟩)]⟩, ⟨2⟩⟩

/-! ## The claims -/

/-- C1: a bulk ingestion request over a bucket listing exactly the units A
and B, neither recorded as processed, submits a fan-out/fan-in topology and
persists it under the finalize node identifier: the persisted root is the
finalize node, it has exactly the two ingest leaves for A and B as children
in submission order, the leaves have no children of their own, and the
finalize node receives the bucket alone as its argument, independent of leaf
results. -/
theorem C1_bulk_ingestion_fanout (env : Env) (s : St) (b A B : String)
    (hb : b.isEmpty = false) (hex : env.minio_bucket_exists b = true)
    (hls : env.minio_list_objects b = [A, B])
    (hA : A ∉ s.store.processed) (hB : B ∉ s.store.processed) :
    ∃ root : TaskNode, ∃ s2 : St,
      IngestData_get env specDb s (some b) =
        .ok (⟨202, .taskId root.id "Ingestion"⟩, s2) ∧
      storeLookupTask s2.store root.id = some root ∧
      root.name = "profile_valentine_all" ∧
      root.args = [b] ∧
      root.children.map TaskNode.name = ["add_table", "add_table"] ∧
      root.children.map TaskNode.args = [[b, A], [b, B]] ∧
      root.children.map TaskNode.children = [[], []] := by
  have hpaths : env.minio_list_objects b ≠ [] := by rw [hls]; simp
  have hrun : IngestData_get env specDb s (some b) =
      .ok (⟨202, .taskId (s.backend.nextId + 1 + 1) "Ingestion"⟩,
        ⟨{ s.store with topologies := (s.backend.nextId + 1 + 1,
            ⟨s.backend.nextId + 1 + 1, "profile_valentine_all", [b],
              [⟨s.backend.nextId, "add_table", [b, A], []⟩,
               ⟨s.backend.nextId + 1, "add_table", [b, B], []⟩]⟩) :: s.store.topologies },
         ⟨s.backend.nextId + 1 + 1 + 1⟩⟩) := by
    rw [IngestData_get_run env s b hb hex hpaths]
    simp [hls, hA, hB, submitChord, submitLeaves, freshId]
  exact ⟨⟨s.backend.nextId + 1 + 1, "profile_valentine_all", [b],
      [⟨s.backend.nextId, "add_table", [b, A], []⟩,
       ⟨s.backend.nextId + 1, "add_table", [b, B], []⟩]⟩, _,
    hrun, storeLookupTask_save _ _ _, rfl, rfl, rfl, rfl, rfl⟩

/-- Witness for C1 at a concrete input: bucket "data" listing A and B over
the empty state. -/
theorem C1_bulk_ingestion_fanout_witness :
    ("data".isEmpty = false) ∧ (envW.minio_bucket_exists "data" = true) ∧
    (envW.minio_list_objects "data" = ["A", "B"]) ∧
    ("A" ∉ st0.store.processed) ∧ ("B" ∉ st0.store.processed) ∧
    (∃ root : TaskNode, ∃ s2 : St,
      IngestData_get envW specDb st0 (some "data") =
        .ok (⟨202, .taskId root.id "Ingestion"⟩, s2) ∧
      storeLookupTask s2.store root.id = some root ∧
      root.name = "profile_valentine_all" ∧
      root.args = ["data"] ∧
      root.children.map TaskNode.name = ["add_table", "add_table"] ∧
      root.children.map TaskNode.args = [["data", "A"], ["data", "B"]] ∧
      root.children.map TaskNode.children = [[], []]) :=
  ⟨rfl, rfl, rfl, by decide, by decide,
    C1_bulk_ingestion_fanout envW st0 "data" "A" "B" rfl rfl rfl
      (by decide) (by decide)⟩

/-- C2 counterexample: with every listed table already recorded as
processed (the candidate set is empty after filtering), the handler still
submits and persists a finalize node and answers 202 with its identifier —
the caller receives a job identifier, not a distinct nothing-to-do
signal. -/
theorem C2_counterexample :
    (∀ p ∈ envW.minio_list_objects "data",
      p ∈ (⟨⟨["A", "B"], []⟩, ⟨0⟩⟩ : St).store.processed) ∧
    IngestData_get envW specDb ⟨⟨["A", "B"], []⟩, ⟨0⟩⟩ (some "data") =
      .ok (⟨202, .taskId 0 "Ingestion"⟩,
        ⟨⟨["A", "B"], [(0, ⟨0, "profile_valentine_all", ["data"], []⟩)]⟩, ⟨1⟩⟩) :=
  ⟨by decide, rfl⟩

/-- C2 (amended): when the candidate set is empty after idempotency
filtering but the bucket lists at least one table, the handler still submits
a finalize node over an empty group, persists the one-node topology under
its identifier and answers 202 with that identifier; the distinct no-work
signal (204, bucket is empty) is answered only when the bucket lists no
tables at all, before any filtering. -/
theorem C2_vacuous_chord_submitted (env : Env) (s : St) (b : String)
    (hb : b.isEmpty = false) (hex : env.minio_bucket_exists b = true)
    (hne : env.minio_list_objects b ≠ [])
    (hall : ∀ p ∈ env.minio_list_objects b, p ∈ s.store.processed)
    (env2 : Env) (s3 : St) (b2 : String)
    (hb2 : b2.isEmpty = false) (hex2 : env2.minio_bucket_exists b2 = true)
    (hempty : env2.minio_list_objects b2 = []) :
    (∃ root : TaskNode, ∃ s2 : St,
      IngestData_get env specDb s (some b) =
        .ok (⟨202, .taskId root.id "Ingestion"⟩, s2) ∧
      root.children = [] ∧
      storeLookupTask s2.store root.id = some root) ∧
    IngestData_get env2 specDb s3 (some b2) =
      .ok (resp 204 "Bucket is empty", s3) := by
  constructor
  · have hfil : (env.minio_list_objects b).filter
        (fun p => !(s.store.processed.contains p)) = [] := by
      rw [List.filter_eq_nil_iff]
      intro a ha
      simp [hall a ha]
    rw [IngestData_get_run env s b hb hex hne]
    simp only [hfil, List.map_nil, submitChord, submitLeaves]
    exact ⟨⟨s.backend.nextId, "profile_valentine_all", [b], []⟩, _,
      rfl, rfl, storeLookupTask_save _ _ _⟩
  · simp [IngestData_get, pyFalsy, strOf, hb2, bucket_exists, hex2,
      get_tables, hempty, resp]

/-- Witness for C2 (amended) at concrete inputs: both listed tables already
processed, and a second environment listing nothing. -/
theorem C2_vacuous_chord_submitted_witness :
    ((∃ root : TaskNode, ∃ s2 : St,
      IngestData_get envW specDb ⟨⟨["A", "B"], []⟩, ⟨0⟩⟩ (some "data") =
        .ok (⟨202, .taskId root.id "Ingestion"⟩, s2) ∧
      root.children = [] ∧
      storeLookupTask s2.store root.id = some root) ∧
    IngestData_get { envW with minio_list_objects := fun _ => [] } specDb st0
      (some "data") = .ok (resp 204 "Bucket is empty", st0)) :=
  C2_vacuous_chord_submitted envW ⟨⟨["A", "B"], []⟩, ⟨0⟩⟩ "data" rfl rfl
    (by decide) (by decide)
    { envW with minio_list_objects := fun _ => [] } st0 "data" rfl rfl rfl

/-- C3: the idempotency gate outputs exactly the candidate units not
recorded as processed — a processed unit is excluded, an unprocessed unit is
kept — and the single-table handler submits nothing (204, already
processed) for a unit whose table metadata exists. -/
theorem C3_idempotency_gate (st : Store) (ps : List String)
    (env : Env) (s : St) (b tp : String)
    (hb : b.isEmpty = false) (htp : tp.isEmpty = false)
    (hex : env.minio_bucket_exists b = true)
    (hte : env.table_exists b tp = .ok true)
    (hmark : tp ∈ s.store.processed) :
    filterUnprocessed specDb st ps =
      .ok (ps.filter (fun p => !(st.processed.contains p))) ∧
    (∀ p ∈ ps, p ∈ st.processed →
      p ∉ ps.filter (fun p => !(st.processed.contains p))) ∧
    (∀ p ∈ ps, p ∉ st.processed →
      p ∈ ps.filter (fun p => !(st.processed.contains p))) ∧
    AddTable_get env specDb s (some b) (some tp) =
      .ok (resp 204 "Table was already processed", s) := by
  refine ⟨filterUnprocessed_specDb st ps, ?_, ?_, ?_⟩
  · intro p hp hmem hfil
    rw [List.mem_filter] at hfil
    simp [hmem] at hfil
  · intro p hp hmem
    rw [List.mem_filter]
    exact ⟨hp, by simp [hmem]⟩
  · simp [AddTable_get, pyFalsy, strOf, hb, htp, bucket_exists, hex, hte,
      hmark, resp]

/-- Witness for C3 at a concrete input: store with A processed, candidates
A and B; single-table submission for the processed unit C. -/
theorem C3_idempotency_gate_witness :
    (filterUnprocessed specDb ⟨["A"], []⟩ ["A", "B"] =
      .ok (["A", "B"].filter
        (fun p => !((⟨["A"], []⟩ : Store).processed.contains p)))) ∧
    ("A" ∉ ["A", "B"].filter
      (fun p => !((⟨["A"], []⟩ : Store).processed.contains p))) ∧
    ("B" ∈ ["A", "B"].filter
      (fun p => !((⟨["A"], []⟩ : Store).processed.contains p))) ∧
    AddTable_get envW specDb ⟨⟨["C"], []⟩, ⟨0⟩⟩ (some "data") (some "C") =
      .ok (resp 204 "Table was already processed", ⟨⟨["C"], []⟩, ⟨0⟩⟩) := by
  have h := C3_idempotency_gate ⟨["A"], []⟩ ["A", "B"] envW
    ⟨⟨["C"], []⟩, ⟨0⟩⟩ "data" "C" rfl rfl rfl rfl (by decide)
  exact ⟨h.1, h.2.1 "A" (by decide) (by decide),
    h.2.2.1 "B" (by decide) (by decide), h.2.2.2⟩

/-- C4: whenever bulk ingestion, single-table addition or star profiling
answers with a task identifier, the topology is already persisted under
that identifier in the resulting state, and an immediate status poll of
that identifier can never answer not-found (it either raises or answers
200). -/
theorem C4_persist_before_return (env : Env) (s : St) (tid c : Nat)
    (ty : String) (s2 : St)
    (h : (∃ b?, IngestData_get env specDb s b? = .ok (⟨c, .taskId tid ty⟩, s2)) ∨
      (∃ b? tp?, AddTable_get env specDb s b? tp? = .ok (⟨c, .taskId tid ty⟩, s2)) ∨
      (∃ b? tp?, ProfileValentine_get env specDb s b? tp? =
        .ok (⟨c, .taskId tid ty⟩, s2))) :
    (∃ t, storeLookupTask s2.store tid = some t) ∧
    (∀ r s3, TaskStatus_get env specDb s2 (some tid) = .ok (r, s3) →
      r.status = 200) := by
  have hlook : ∃ t, storeLookupTask s2.store tid = some t := by
    rcases h with ⟨b?, h⟩ | ⟨b?, tp?, h⟩ | ⟨b?, tp?, h⟩
    · exact IngestData_taskId_persisted env s b? c tid ty s2 h
    · exact AddTable_taskId_persisted env s b? tp? c tid ty s2 h
    · exact ProfileValentine_taskId_persisted env s b? tp? c tid ty s2 h
  obtain ⟨t, ht⟩ := hlook
  refine ⟨⟨t, ht⟩, ?_⟩
  intro r s3 hr
  rcases TaskStatus_found env s2 tid t ht with ⟨e, he⟩ | ⟨tree, htree⟩
  · rw [he] at hr
    cases hr
  · rw [htree] at hr
    simp only [Except.ok.injEq, Prod.mk.injEq] at hr
    rw [← hr.1]

/-- Witness for C4 at a concrete input: the single-table submission for
unit C from the empty state. -/
theorem C4_persist_before_return_witness :
    (∃ t, storeLookupTask stAdd.store 0 = some t) ∧
    (∀ r s3, TaskStatus_get envW specDb stAdd (some 0) = .ok (r, s3) →
      r.status = 200) :=
  C4_persist_before_return envW st0 0 202 "Single Ingestion" stAdd
    (.inr (.inl ⟨some "data", some "C", rfl⟩))

/-- C5: a single-unit submission for unit C builds and persists a two-node
linear chain — the ingest stage with the profile stage as its only child —
and each stage receives the unit bucket and table path as its own arguments,
not the preceding stage result. -/
theorem C5_single_unit_chain (env : Env) (s : St) (b tp : String)
    (hb : b.isEmpty = false) (htp : tp.isEmpty = false)
    (hex : env.minio_bucket_exists b = true)
    (hte : env.table_exists b tp = .ok true)
    (hproc : tp ∉ s.store.processed) :
    ∃ root : TaskNode, ∃ s2 : St,
      AddTable_get env specDb s (some b) (some tp) =
        .ok (⟨202, .taskId root.id "Single Ingestion"⟩, s2) ∧
      storeLookupTask s2.store root.id = some root ∧
      root.name = "add_table" ∧ root.args = [b, tp] ∧
      ∃ child : TaskNode, root.children = [child] ∧
        child.name = "profile_valentine_star" ∧ child.args = [b, tp] ∧
        child.children = [] := by
  have hrun : AddTable_get env specDb s (some b) (some tp) =
      .ok (⟨202, .taskId s.backend.nextId "Single Ingestion"⟩,
        ⟨{ s.store with topologies := (s.backend.nextId,
            ⟨s.backend.nextId, "add_table", [b, tp],
              [⟨s.backend.nextId + 1, "profile_valentine_star", [b, tp], []⟩]⟩)
            :: s.store.topologies },
         ⟨s.backend.nextId + 2⟩⟩) := by
    simp [AddTable_get, pyFalsy, strOf, hb, htp, bucket_exists, hex, hte,
      hproc, submitChain2]
  exact ⟨⟨s.backend.nextId, "add_table", [b, tp],
      [⟨s.backend.nextId + 1, "profile_valentine_star", [b, tp], []⟩]⟩, _,
    hrun, storeLookupTask_save _ _ _, rfl, rfl,
    ⟨s.backend.nextId + 1, "profile_valentine_star", [b, tp], []⟩,
    rfl, rfl, rfl, rfl⟩

/-- Witness for C5 at a concrete input: unit C in bucket "data" from the
empty state. -/
theorem C5_single_unit_chain_witness :
    ∃ root : TaskNode, ∃ s2 : St,
      AddTable_get envW specDb st0 (some "data") (some "C") =
        .ok (⟨202, .taskId root.id "Single Ingestion"⟩, s2) ∧
      storeLookupTask s2.store root.id = some root ∧
      root.name = "add_table" ∧ root.args = ["data", "C"] ∧
      ∃ child : TaskNode, root.children = [child] ∧
        child.name = "profile_valentine_star" ∧ child.args = ["data", "C"] ∧
        child.children = [] :=
  C5_single_unit_chain envW st0 "data" "C" rfl rfl rfl rfl (by decide)

/-- C6: a status query for an identifier with no persisted topology answers
exactly 404, the task-does-not-exist outcome, with the state unchanged —
never a partially populated status tree. -/
theorem C6_unknown_task_not_found (env : Env) (s : St) (tid : Nat)
    (h : storeLookupTask s.store tid = none) :
    TaskStatus_get env specDb s (some tid) =
      .ok (resp 404 "Task does not exist", s) := by
  simp [TaskStatus_get, h, resp]

/-- Witness for C6 at a concrete input: identifier 7 over the empty
state. -/
theorem C6_unknown_task_not_found_witness :
    (storeLookupTask st0.store 7 = none) ∧
    TaskStatus_get envW specDb st0 (some 7) =
      .ok (resp 404 "Task does not exist", st0) :=
  ⟨rfl, C6_unknown_task_not_found envW st0 7 rfl⟩

/-- C7: when a topology is persisted for the queried identifier but the
live-state query of at least one of its nodes fails, the whole status query
fails — it never answers with a status tree missing that branch. -/
theorem C7_transient_failure_fails_whole (env : Env) (s : St) (tid : Nat)
    (t : TaskNode) (i : Nat) (e : PyExn)
    (hload : storeLookupTask s.store tid = some t)
    (hi : i ∈ nodeIds t) (hq : env.queryState i = .error e) :
    ∃ e2, TaskStatus_get env specDb s (some tid) = .error e2 := by
  obtain ⟨e2, h2⟩ := generate_status_tree_fails env.queryState t i e hi hq
  exact ⟨e2, by simp [TaskStatus_get, hload, result_from_tuple, h2]⟩

/-- Witness for C7 at a concrete input: a persisted one-node topology under
identifier 5 and an environment whose live-state queries fail. -/
theorem C7_transient_failure_fails_whole_witness :
    (storeLookupTask stTopo.store 5 = some ⟨5, "add_table", ["data", "A"], []⟩) ∧
    ((5 : Nat) ∈ nodeIds ⟨5, "add_table", ["data", "A"], []⟩) ∧
    (envQfail.queryState 5 = .error (.backendError "backend down")) ∧
    ∃ e2, TaskStatus_get envQfail specDb stTopo (some 5) = .error e2 :=
  ⟨rfl, by decide, rfl,
    C7_transient_failure_fails_whole envQfail stTopo 5
      ⟨5, "add_table", ["data", "A"], []⟩ 5 (.backendError "backend down")
      rfl (by decide) rfl⟩

@[simp] theorem brokenDb_table_exists (st : Store) (p : String) :
    brokenDb.table_exists st p = .error (.syntaxError "from redis import") := rfl

@[simp] theorem brokenDb_get_table (st : Store) (p : String) :
    brokenDb.get_table st p = .error (.syntaxError "from redis import") := rfl

@[simp] theorem brokenDb_get_celery_task (st : Store) (tid : Nat) :
    brokenDb.get_celery_task st tid = .error (.syntaxError "from redis import") := rfl

@[simp] theorem brokenDb_purge (st : Store) :
    brokenDb.purge st = .error (.syntaxError "from redis import") := rfl

/-- The idempotency loop against the broken store module raises on its
first candidate. -/
theorem filterUnprocessed_brokenDb_cons (st : Store) (p : String)
    (ps : List String) :
    filterUnprocessed brokenDb st (p :: ps) =
      .error (.syntaxError "from redis import") := rfl

/-- C8: the store module has an incomplete import statement and defines
only add_table — the five functions the handlers call are commented out —
so attribute resolution against it fails, and every handler operation that
reaches a store call raises an exception instead of completing. -/
theorem C8_store_module_broken :
    fromImportComplete redisImportNames = false ∧
    redisToolsDefs = ["add_table"] ∧
    (∀ f ∈ ["save_celery_task", "get_celery_task", "get_table",
        "table_exists", "purge"],
      redisToolsDefs.contains f = false ∧
      ∃ e, resolveDbAttr f = .error e) ∧
    (∀ s : St, ∃ e, Purge_get brokenDb s = .error e) ∧
    (∀ (env : Env) (s : St) (tid : Nat),
      ∃ e, TaskStatus_get env brokenDb s (some tid) = .error e) ∧
    (∀ (env : Env) (s : St) (b : String), b.isEmpty = false →
      env.minio_bucket_exists b = true → env.minio_list_objects b ≠ [] →
      ∃ e, IngestData_get env brokenDb s (some b) = .error e) ∧
    (∀ (env : Env) (s : St) (b tp : String), b.isEmpty = false →
      tp.isEmpty = false → env.minio_bucket_exists b = true →
      env.table_exists b tp = .ok true →
      ∃ e, ProfileValentine_get env brokenDb s (some b) (some tp) = .error e) ∧
    (∀ (env : Env) (s : St) (b tp : String), b.isEmpty = false →
      tp.isEmpty = false → env.minio_bucket_exists b = true →
      env.table_exists b tp = .ok true →
      ∃ e, AddTable_get env brokenDb s (some b) (some tp) = .error e) := by
  refine ⟨rfl, rfl, ?_, ?_, ?_, ?_, ?_, ?_⟩
  · intro f hf
    fin_cases hf <;> exact ⟨rfl, ⟨.syntaxError "from redis import", rfl⟩⟩
  · intro s
    exact ⟨.syntaxError "from redis import", rfl⟩
  · intro env s tid
    exact ⟨.syntaxError "from redis import", rfl⟩
  · intro env s b hb hex hne
    obtain ⟨p, ps, hcons⟩ := List.exists_cons_of_ne_nil hne
    refine ⟨.syntaxError "from redis import", ?_⟩
    simp [IngestData_get, pyFalsy, strOf, hb, bucket_exists, hex, get_tables,
      hcons, filterUnprocessed_brokenDb_cons]
  · intro env s b tp hb htp hex hte
    refine ⟨.syntaxError "from redis import", ?_⟩
    simp [ProfileValentine_get, pyFalsy, strOf, hb, htp, bucket_exists, hex, hte]
  · intro env s b tp hb htp hex hte
    refine ⟨.syntaxError "from redis import", ?_⟩
    simp [AddTable_get, pyFalsy, strOf, hb, htp, bucket_exists, hex, hte]

/-- Witness for C8 at concrete inputs: each handler raising through the
broken store module. -/
theorem C8_store_module_broken_witness :
    (redisToolsDefs.contains "table_exists" = false ∧
      ∃ e, resolveDbAttr "table_exists" = .error e) ∧
    (∃ e, Purge_get brokenDb st0 = .error e) ∧
    (∃ e, TaskStatus_get envW brokenDb st0 (some 0) = .error e) ∧
    (∃ e, IngestData_get envW brokenDb st0 (some "data") = .error e) ∧
    (∃ e, ProfileValentine_get envW brokenDb st0 (some "data") (some "C") = .error e) ∧
    (∃ e, AddTable_get envW brokenDb st0 (some "data") (some "C") = .error e) :=
  ⟨C8_store_module_broken.2.2.1 "table_exists" (by decide),
   C8_store_module_broken.2.2.2.1 st0,
   C8_store_module_broken.2.2.2.2.1 envW st0 0,
   C8_store_module_broken.2.2.2.2.2.1 envW st0 "data" rfl rfl (by decide),
   C8_store_module_broken.2.2.2.2.2.2.1 envW st0 "data" "C" rfl rfl rfl rfl,
   C8_store_module_broken.2.2.2.2.2.2.2 envW st0 "data" "C" rfl rfl rfl rfl⟩

/-- C9: the object-store table-existence check references the unbound name
`path` and raises NameError for every input, never returning a boolean; and
any handler guarded by it — star profiling, single-table addition, CSV
extraction — propagates that NameError once its earlier guards pass,
reaching neither its table-does-not-exist branch nor its success branch. -/
theorem C9_table_exists_name_error :
    (∀ (env : Env) (b tp : String),
      io_table_exists env b tp = .error (.nameError "path")) ∧
    (∀ (env envIo2 : Env) (db : Db) (s : St) (b? tp? : Option String),
      env.table_exists = io_table_exists envIo2 →
      pyFalsy b? = false → pyFalsy tp? = false →
      env.minio_bucket_exists (strOf b?) = true →
      (ProfileValentine_get env db s b? tp? = .error (.nameError "path") ∧
       AddTable_get env db s b? tp? = .error (.nameError "path") ∧
       (∀ rows_raw : Option String,
         ((pyIntArg rows_raw).getD 0 == 0) = false →
         GetTableCSV_get env db s b? tp? rows_raw =
           .error (.nameError "path")))) := by
  have hio : ∀ (env : Env) (b tp : String),
      io_table_exists env b tp = .error (.nameError "path") := by
    intro env b tp
    simp [io_table_exists, lookupVar, tableExistsLocals, List.find?]
  refine ⟨hio, ?_⟩
  intro env envIo2 db s b? tp? henv hb htp hex
  refine ⟨?_, ?_, ?_⟩
  · simp [ProfileValentine_get, hb, htp, bucket_exists, hex, henv, hio]
  · simp [AddTable_get, hb, htp, bucket_exists, hex, henv, hio]
  · intro rows_raw hrows
    simp [GetTableCSV_get, hb, htp, hrows, bucket_exists, hex, henv, hio]

/-- Witness for C9 at a concrete input: bucket "data", unit C, the handlers
running with the actual io table check. -/
theorem C9_table_exists_name_error_witness :
    (io_table_exists envW "data" "C" = .error (.nameError "path")) ∧
    (ProfileValentine_get envIo specDb st0 (some "data") (some "C") =
      .error (.nameError "path")) ∧
    (AddTable_get envIo specDb st0 (some "data") (some "C") =
      .error (.nameError "path")) ∧
    (GetTableCSV_get envIo specDb st0 (some "data") (some "C") (some "5") =
      .error (.nameError "path")) := by
  have h2 := C9_table_exists_name_error.2 envIo envW specDb st0
    (some "data") (some "C") rfl rfl rfl rfl
  exact ⟨C9_table_exists_name_error.1 envW "data" "C",
    h2.1, h2.2.1, h2.2.2 (some "5") (by decide)⟩

/-- C10: a CSV request whose rows parameter converts to the integer 0 or
fails to convert is answered 400 with the missing-parameters message,
identically to a request without the parameter; an empty CSV is never
produced for rows equal to 0. -/
theorem C10_rows_zero_or_unparsable_400 (env : Env) (db : Db) (s : St)
    (b? tp? raw : Option String)
    (h : pyIntArg raw = some 0 ∨ pyIntArg raw = none) :
    GetTableCSV_get env db s b? tp? raw =
      .ok (resp 400 "Missing table path, rows or bucket query parameters", s) ∧
    GetTableCSV_get env db s b? tp? raw = GetTableCSV_get env db s b? tp? none := by
  constructor
  · rcases h with h | h <;>
      (simp only [GetTableCSV_get]; rw [h]; simp [resp])
  · rcases h with h | h <;>
      (simp only [GetTableCSV_get]; rw [h]; simp [pyIntArg, resp])

/-- Witness for C10 at a concrete input: rows given as the string 0 and as
an unparsable string. -/
theorem C10_rows_zero_or_unparsable_400_witness :
    (pyIntArg (some "0") = some 0) ∧ (pyIntArg (some "abc") = none) ∧
    (GetTableCSV_get envW specDb st0 (some "data") (some "C") (some "0") =
      .ok (resp 400 "Missing table path, rows or bucket query parameters", st0) ∧
    GetTableCSV_get envW specDb st0 (some "data") (some "C") (some "0") =
      GetTableCSV_get envW specDb st0 (some "data") (some "C") none) ∧
    (GetTableCSV_get envW specDb st0 (some "data") (some "C") (some "abc") =
      .ok (resp 400 "Missing table path, rows or bucket query parameters", st0)) :=
  ⟨by decide, by decide,
   C10_rows_zero_or_unparsable_400 envW specDb st0 (some "data") (some "C")
     (some "0") (.inl (by decide)),
   (C10_rows_zero_or_unparsable_400 envW specDb st0 (some "data") (some "C")
     (some "abc") (.inr (by decide))).1⟩

end Discovery
